import Mathlib

/-!
# Verification of bmo-learning-platform against its specification

Shallow embedding of the parts of the repository the claims are about:

* `app/ai_service/app/safety/safety_validator.py` — PII regexes, moderation,
  constitutional check, `validate_content`, `sanitize_content`;
* `app/ai_service/agents/memory_manager.py` — learner context and progress;
* `app/ai_service/agents/tools.py` — `get_learning_path`;
* `app/ai_service/app/ingestion/vector_store.py` — `load_vector_store`,
  `restore_from_s3`;
* `app/ai_service/app/ingestion/s3_document_loader.py` — `S3DirectoryLoader.load`.

Python strings are modelled as `List Char` (ASCII fragment: the repository's
regexes only use ASCII character classes).  Python `re` semantics are embedded
by a small backtracking matcher: every quantifier in the source patterns
applies to a single-character class, so a pattern is a list of items, each
matching one character, a greedy bounded repetition of a class, or a word
boundary.  `re.search` is existence of a match at some position (leftmost
scan); `re.sub` replaces non-overlapping matches left to right, preferring
the leftmost start and, per backtracking priority, the greediest repetition
counts.
-/

/-- ASCII decimal digit, Python `\d` restricted to ASCII. -/
def isDigitChar (c : Char) : Bool := '0' ≤ c && c ≤ '9'

/-- Python `\w` (ASCII): letters, digits, underscore.  Used for `\b`. -/
def isWordChar (c : Char) : Bool := c.isAlpha || isDigitChar c || c = '_'

/-- Python `\s` (ASCII): space, tab, newline, CR, vertical tab, form feed. -/
def isSpaceChar (c : Char) : Bool :=
  c = ' ' || c = '\t' || c = '\n' || c = '\r' || c = '\x0b' || c = '\x0c'

/-- One item of a source regex: a single-character class, a greedy repetition
`p{min,max}` of a single-character class (`max = none` means unbounded), or a
word boundary `\b`.  Every regex in `safety_validator.py` is a sequence of
such items. -/
inductive RItem where
  | one : (Char → Bool) → RItem
  | rep : (Char → Bool) → Nat → Option Nat → RItem
  | wb : RItem

/-- Length of the maximal run of characters satisfying `p` at the head. -/
def runLen (p : Char → Bool) : List Char → Nat
  | [] => 0
  | c :: cs => if p c then runLen p cs + 1 else 0

/-- The character immediately before the current position after consuming
`taken`, given the previous such character `prev`. -/
def lastLetter (prev : Option Char) (taken : List Char) : Option Char :=
  match taken.getLast? with
  | some c => some c
  | none => prev

/-- Python `\b`: exactly one of the adjacent characters is a word character
(text edges count as non-word). -/
def atBoundary (prev : Option Char) (cs : List Char) : Bool :=
  let a := match prev with | some c => isWordChar c | none => false
  let b := match cs with | c :: _ => isWordChar c | [] => false
  a != b

/-- Match a sequence of items at the current position.  `prev` is the
character just before the position (for `\b`).  Returns the remaining text
after the match, choosing the greediest repetition counts first (Python
backtracking priority).  For a repetition the candidate counts are tried
from the largest feasible down to the minimum. -/
def matchItems : List RItem → List Char → Option Char → Option (List Char)
  | [], cs, _ => some cs
  | RItem.one p :: rest, [], _ =>
    let _ := p; let _ := rest; none
  | RItem.one p :: rest, c :: cs, _ =>
    if p c then matchItems rest cs (some c) else none
  | RItem.wb :: rest, cs, prev =>
    if atBoundary prev cs then matchItems rest cs prev else none
  | RItem.rep p mn mx :: rest, cs, prev =>
    let r := runLen p cs
    let hi := match mx with | some m => Nat.min r m | none => r
    ((List.range (hi + 1 - mn)).map (fun j => hi - j)).findSome?
      (fun k => matchItems rest (cs.drop k) (lastLetter prev (cs.take k)))

/-- `re.search`: does the pattern match starting at some position?  `prev` is
the character before the current suffix. -/
def searchFrom (pat : List RItem) : List Char → Option Char → Bool
  | [], prev => (matchItems pat [] prev).isSome
  | c :: rest, prev =>
    (matchItems pat (c :: rest) prev).isSome || searchFrom pat rest (some c)

/-- `re.search(pat, s)` as a Bool. -/
def reSearch (pat : List RItem) (cs : List Char) : Bool := searchFrom pat cs none

/-- Fuelled worker for `re.sub`: scan left to right; at each position try the
pattern (greedy), replace the consumed span with `repl`, and continue after
it; otherwise emit one character and move on.  A zero-width match emits the
replacement and then advances one character (Python ≥3.7 semantics); the
source patterns never match the empty string.  Fuel bounds the number of
steps; `cs.length + 1` always suffices since every step either ends the scan
or strictly shortens the text. -/
def subAllF : Nat → List RItem → List Char → List Char → Option Char → List Char
  | 0, _, _, cs, _ => cs
  | fuel + 1, pat, repl, cs, prev =>
    match matchItems pat cs prev with
    | some suffix =>
      let consumed := cs.length - suffix.length
      if consumed = 0 then
        match cs with
        | [] => repl
        | c :: rest => repl ++ c :: subAllF fuel pat repl rest (some c)
      else
        repl ++ subAllF fuel pat repl suffix (lastLetter prev (cs.take consumed))
    | none =>
      match cs with
      | [] => []
      | c :: rest => c :: subAllF fuel pat repl rest (some c)

/-- `re.sub(pat, repl, cs)`. -/
def reSub (pat : List RItem) (repl : List Char) (cs : List Char) : List Char :=
  subAllF (cs.length + 1) pat repl cs none

/-! ## The PII regexes of `safety_validator.py`, transcribed item by item. -/

/-- `[A-Za-z0-9._%+-]` — the local part class of the email regex. -/
def emailLocalClass (c : Char) : Bool :=
  c.isAlpha || isDigitChar c || c = '.' || c = '_' || c = '%' || c = '+' || c = '-'

/-- `[A-Za-z0-9.-]` — the domain class of the email regex. -/
def emailDomainClass (c : Char) : Bool :=
  c.isAlpha || isDigitChar c || c = '.' || c = '-'

/-- `[A-Z|a-z]` — the TLD class of the email regex (the literal `|` is part
of the class in the source). -/
def emailTldClass (c : Char) : Bool :=
  ('A' ≤ c && c ≤ 'Z') || c = '|' || ('a' ≤ c && c ≤ 'z')

/-- `[-.\s]` — separator class of the phone regexes. -/
def phoneSepClass (c : Char) : Bool := c = '-' || c = '.' || isSpaceChar c

/-- `[-\s]` — separator class of the credit-card regex. -/
def ccSepClass (c : Char) : Bool := c = '-' || isSpaceChar c

/-- `\b[A-Za-z0-9._%+-]+@[A-Za-z0-9.-]+\.[A-Z|a-z]{2,}\b` -/
def emailRe : List RItem :=
  [RItem.wb, RItem.rep emailLocalClass 1 none, RItem.one (· = '@'),
   RItem.rep emailDomainClass 1 none, RItem.one (· = '.'),
   RItem.rep emailTldClass 2 none, RItem.wb]

/-- `\(?\d{3}\)?[-.\s]?\d{3}[-.\s]?\d{4}\b` — the phone regex shared by
`_detect_pii_list` and the first phone pass of `sanitize_content`. -/
def phoneRe : List RItem :=
  [RItem.rep (· = '(') 0 (some 1), RItem.rep isDigitChar 3 (some 3),
   RItem.rep (· = ')') 0 (some 1), RItem.rep phoneSepClass 0 (some 1),
   RItem.rep isDigitChar 3 (some 3), RItem.rep phoneSepClass 0 (some 1),
   RItem.rep isDigitChar 4 (some 4), RItem.wb]

/-- `\b\d{3}[-.\s]\d{4}\b` — the second phone pass of `sanitize_content`
(`# Match 555-1234`); this pattern is *not* part of `_detect_pii_list`. -/
def shortPhoneRe : List RItem :=
  [RItem.wb, RItem.rep isDigitChar 3 (some 3), RItem.one phoneSepClass,
   RItem.rep isDigitChar 4 (some 4), RItem.wb]

/-- `\b\d{3}-\d{2}-\d{4}\b` -/
def ssnRe : List RItem :=
  [RItem.wb, RItem.rep isDigitChar 3 (some 3), RItem.one (· = '-'),
   RItem.rep isDigitChar 2 (some 2), RItem.one (· = '-'),
   RItem.rep isDigitChar 4 (some 4), RItem.wb]

/-- `\b\d{4}[-\s]?\d{4}[-\s]?\d{4}[-\s]?\d{4}\b` -/
def creditCardRe : List RItem :=
  [RItem.wb, RItem.rep isDigitChar 4 (some 4), RItem.rep ccSepClass 0 (some 1),
   RItem.rep isDigitChar 4 (some 4), RItem.rep ccSepClass 0 (some 1),
   RItem.rep isDigitChar 4 (some 4), RItem.rep ccSepClass 0 (some 1),
   RItem.rep isDigitChar 4 (some 4), RItem.wb]

/-- `SafetyValidator._detect_pii_list` (lines 85-116): the argument is
`str | None`; `None` and the empty string yield `[]`, otherwise the four
regexes are searched and their labels collected in source order. -/
def detect_pii_list (text : Option (List Char)) : List String :=
  match text with
  | none => []
  | some cs =>
    if cs.isEmpty then []
    else
      (if reSearch emailRe cs then ["email"] else []) ++
      (if reSearch phoneRe cs then ["phone"] else []) ++
      (if reSearch ssnRe cs then ["ssn"] else []) ++
      (if reSearch creditCardRe cs then ["credit_card"] else [])

/-- `"[REDACTED]"` -/
def redactedToken : List Char := "[REDACTED]".data

/-- `SafetyValidator.sanitize_content` (lines 216-247): five `re.sub` passes
in source order — email, phone, short phone, SSN, credit card. -/
def sanitize_content (content : List Char) : List Char :=
  let c1 := reSub emailRe redactedToken content
  let c2 := reSub phoneRe redactedToken c1
  let c3 := reSub shortPhoneRe redactedToken c2
  let c4 := reSub ssnRe redactedToken c3
  reSub creditCardRe redactedToken c4

/-! ## `SafetyValidator.validate_content` and its two classifier calls

The OpenAI moderation call and the constitutional-check LLM call are external
I/O; each is modelled as an `Except`-valued argument: `Except.error` is the
`except Exception` branch of the source, `Except.ok` is a normal response. -/

/-- The safety-relevant fields of `app/config/settings.py` with their source
defaults. -/
structure Settings where
  enable_constitutional_ai : Bool := true
  enable_pii_detection : Bool := true

/-- One result of `openai_client.moderations.create`: the overall flag and
`categories.model_dump()` as a name/flag association list. -/
structure ModerationResult where
  flagged : Bool
  categories : List (String × Bool)

/-- Return value of `SafetyValidator._check_moderation`. -/
structure ModerationOutcome where
  flagged : Bool
  categories : List String
  deriving DecidableEq

/-- `SafetyValidator._check_moderation` (lines 131-157): on a successful call,
collect the flagged category names when the result is flagged; on an
exception, return `{"flagged": False, "categories": []}`. -/
def check_moderation (call : Except String ModerationResult) : ModerationOutcome :=
  match call with
  | Except.ok result =>
    let flagged_categories :=
      if result.flagged then (result.categories.filter (fun p => p.2)).map (fun p => p.1)
      else []
    ⟨result.flagged, flagged_categories⟩
  | Except.error _ => ⟨false, []⟩

/-- Return value of `SafetyValidator._constitutional_check`. -/
structure ConstitutionalOutcome where
  passed : Bool
  violations : List String
  deriving DecidableEq

/-- Is `pre` a leading segment of `s`? -/
def listIsPre : List Char → List Char → Bool
  | [], _ => true
  | _ :: _, [] => false
  | a :: as, b :: bs => a = b && listIsPre as bs

/-- Does `sub` occur contiguously inside `cs`? (Python `in` on strings.) -/
def hasSub (cs sub : List Char) : Bool :=
  match cs with
  | [] => sub.isEmpty
  | _ :: rest => listIsPre sub cs || hasSub rest sub

/-- `SafetyValidator._constitutional_check` (lines 176-214): on a successful
LLM call the lowercased response passes iff it contains `"true"` or
`"passed"`; on an exception, return `{"passed": True, "violations": []}`. -/
def constitutional_check (call : Except String String) : ConstitutionalOutcome :=
  match call with
  | Except.ok content =>
    let response_text := content.toLower
    let passed := hasSub response_text.data "true".data || hasSub response_text.data "passed".data
    ⟨passed, if passed then [] else ["Constitutional check failed"]⟩
  | Except.error _ => ⟨true, []⟩

/-- The `results` dict of `SafetyValidator.validate_content`. -/
structure ValidationResult where
  passed : Bool
  pii_detected : Bool
  moderation_flagged : Bool
  constitutional_ai_passed : Bool
  issues : List String
  deriving DecidableEq

/-- `SafetyValidator.validate_content` (lines 34-83): start from the
all-clear result, then apply the PII, moderation and constitutional checks
in source order, each mutating `passed` and its own fields. -/
def validate_content (st : Settings) (moderationCall : Except String ModerationResult)
    (constitutionalCall : Except String String) (content : List Char) : ValidationResult :=
  let results0 : ValidationResult := ⟨true, false, false, true, []⟩
  let results1 :=
    if st.enable_pii_detection then
      let pii_found := detect_pii_list (some content)
      if !pii_found.isEmpty then
        { results0 with
            passed := false
            pii_detected := true
            issues := results0.issues ++
              ["PII detected: " ++ String.intercalate ", " pii_found] }
      else results0
    else results0
  let moderation := check_moderation moderationCall
  let results2 :=
    if moderation.flagged then
      { results1 with
          passed := false
          moderation_flagged := true
          issues := results1.issues ++ moderation.categories }
    else results1
  if st.enable_constitutional_ai then
    let constitutional := constitutional_check constitutionalCall
    if !constitutional.passed then
      { results2 with
          passed := false
          constitutional_ai_passed := false
          issues := results2.issues ++ constitutional.violations }
    else results2
  else results2

/-! ## `agents/memory_manager.py` — learner context

Redis storage is modelled as the `Option String` looked up under the
learner's key, and `json.loads` as an `Option`-valued decoding argument
(`none` is the `json.JSONDecodeError` branch). -/

/-- One interaction dict: the three keys the source reads, each optional. -/
structure Interaction where
  type : Option String := none
  score : Option ℚ := none
  topic : Option String := none
  deriving DecidableEq

/-- The `performance_metrics` sub-dict. -/
structure PerformanceMetrics where
  average_score : ℚ
  quizzes_taken : ℕ
  deriving DecidableEq

/-- The learner-context dict of `memory_manager.py`. -/
structure LearnerContext where
  learner_id : String
  topics_covered : List String
  current_level : String
  performance_metrics : PerformanceMetrics
  preferences_difficulty : String
  recent_interactions : List Interaction
  deriving DecidableEq

/-- The default context literal of `get_learner_context` (lines 36-48). -/
def default_context (learner_id : String) : LearnerContext :=
  { learner_id := learner_id
    topics_covered := []
    current_level := "beginner"
    performance_metrics := { average_score := 0, quizzes_taken := 0 }
    preferences_difficulty := "medium"
    recent_interactions := [] }

/-- `LearningMemoryManager.get_learner_context` (lines 17-49): `stored` is
`redis_client.get(key)`; a missing or empty value, or a value `decode`
rejects (`json.JSONDecodeError`), falls through to the default context. -/
def get_learner_context (stored : Option String) (decode : String → Option LearnerContext)
    (learner_id : String) : LearnerContext :=
  match stored with
  | some context_json =>
    if context_json ≠ "" then
      match decode context_json with
      | some ctx => ctx
      | none => default_context learner_id
    else default_context learner_id
  | none => default_context learner_id

/-- `LearningMemoryManager.update_learner_progress` (lines 51-85): the
transformation applied to the fetched context before it is written back —
append to `recent_interactions` keeping the last 10, add an unseen topic,
and on a quiz interaction with a score recompute the running average. -/
def update_learner_progress (context : LearnerContext) (interaction : Interaction) :
    LearnerContext :=
  let appended := context.recent_interactions ++ [interaction]
  let recent :=
    if appended.length > 10 then appended.drop (appended.length - 10) else appended
  let topics :=
    match interaction.topic with
    | some t =>
      if t ∈ context.topics_covered then context.topics_covered
      else context.topics_covered ++ [t]
    | none => context.topics_covered
  let metrics :=
    if interaction.type = some "quiz" then
      match interaction.score with
      | some new_score =>
        let current_avg := context.performance_metrics.average_score
        let count := context.performance_metrics.quizzes_taken
        { average_score := (current_avg * count + new_score) / (count + 1)
          quizzes_taken := count + 1 }
      | none => context.performance_metrics
    else context.performance_metrics
  { context with
      recent_interactions := recent
      topics_covered := topics
      performance_metrics := metrics }

/-! ## `agents/tools.py` — `get_learning_path`

Float thresholds are modelled as rationals; the comparisons `0.9 > 0.8`,
`0.3 < 0.5`, `0.6 > 0.8`, `0.6 < 0.5` have the same outcomes over `ℚ` as
over IEEE doubles. -/

/-- Return dict of `get_learning_path`. -/
structure LearningPath where
  next_topic : String
  difficulty_adjustment : String
  reinforcement_needed : Bool
  deriving DecidableEq

/-- `get_learning_path` (lines 149-171 of `agents/tools.py`). -/
def get_learning_path (learner_id : String) (current_topic : String) (performance : ℚ) :
    LearningPath :=
  let _ := learner_id
  if performance > 8/10 then
    { next_topic := "Advanced " ++ current_topic
      difficulty_adjustment := "increase"
      reinforcement_needed := false }
  else if performance < 5/10 then
    { next_topic := current_topic
      difficulty_adjustment := "decrease"
      reinforcement_needed := true }
  else
    { next_topic := "Related concepts to " ++ current_topic
      difficulty_adjustment := "maintain"
      reinforcement_needed := false }

/-! ## `app/ingestion/vector_store.py` — loading and restoring

Filesystem paths are modelled as absolute component lists; `Path.resolve()`
is the lexical resolution of `.` and `..` (no symlinks in the model). -/

/-- The configuration of `VectorStoreManager.__init__`, with the source
defaults from `app/config/settings.py`. -/
structure VectorStoreManager where
  persist_directory : String := "./data/chroma"
  collection_name : String := "bmo_learning_docs"

/-- A Chroma client handle as returned by the `Chroma(...)` constructor. -/
structure ChromaHandle where
  collection_name : String
  persist_directory : String
  deriving DecidableEq

/-- `VectorStoreManager.load_vector_store` (lines 62-78): the body constructs
`Chroma(collection_name=…, embedding_function=…, persist_directory=…)` and
returns it.  It contains no existence check, and the Chroma constructor opens
the persisted collection when one exists and otherwise creates an empty one —
it raises no not-found error.  `indexExists` records whether a previously
persisted index is present at the configured location; the body does not
consult it. -/
def load_vector_store (mgr : VectorStoreManager) (indexExists : Bool) :
    Except String ChromaHandle :=
  let _ := indexExists
  Except.ok ⟨mgr.collection_name, mgr.persist_directory⟩

/-- Lexical `Path.resolve()` on components: `..` pops, `.` is dropped. -/
def resolveComps (comps : List String) : List String :=
  comps.foldl
    (fun acc c => if c = ".." then acc.dropLast else if c = "." then acc else acc ++ [c]) []

/-- `str(Path(...))` for an absolute path given by components. -/
def pathStr (comps : List String) : String :=
  "/" ++ String.intercalate "/" comps

/-- A tar archive member, its name split into relative path components
(which may include `..`). -/
structure TarMember where
  name : List String
  deriving DecidableEq

/-- The per-member security check of `restore_from_s3` (lines 345-351):
`str((extract_dir / member.name).resolve()).startswith(str(extract_dir.resolve()))`. -/
def memberPathCheck (extractDir : List String) (m : TarMember) : Bool :=
  listIsPre (pathStr (resolveComps extractDir)).data
    (pathStr (resolveComps (extractDir ++ m.name))).data

/-- Is `a` a leading segment of the component list `b`? -/
def compIsPre : List String → List String → Bool
  | [], _ => true
  | _ :: _, [] => false
  | a :: as, b :: bs => a = b && compIsPre as bs

/-- Containment in the directory-tree sense: the resolved extraction
directory is a component-wise ancestor (or equal) of the resolved member
path.  This is what "resolves inside the target directory" means; it is
*not* the string-prefix test the source performs. -/
def memberWithin (extractDir : List String) (m : TarMember) : Bool :=
  compIsPre (resolveComps extractDir) (resolveComps (extractDir ++ m.name))

/-- `VectorStoreManager.restore_from_s3` (lines 270-368), reduced to the
state it decides: refuse when the persist directory exists and `overwrite`
is false; otherwise run the member loop, which raises `ValueError` at the
first member failing the string-prefix check — extracting nothing — and only
when every member passes runs `tar.extractall`, extracting all members. -/
def restore_from_s3 (persistExists : Bool) (overwrite : Bool)
    (extractDir : List String) (members : List TarMember) :
    Except String (List TarMember) :=
  if persistExists && !overwrite then
    Except.error "FileExistsError"
  else
    match members.find? (fun m => !memberPathCheck extractDir m) with
    | some _ => Except.error "Archive contains unsafe path"
    | none => Except.ok members

/-! ## `app/ingestion/s3_document_loader.py` — `S3DirectoryLoader.load`

`S3FileLoader(...).load()` performs S3 and parsing I/O; it is modelled as an
`Except`-valued argument mapping an object key to documents or a failure. -/

/-- A LangChain document (content only; the loader never inspects it). -/
structure Document where
  page_content : String
  deriving DecidableEq

/-- The per-file loop of `S3DirectoryLoader.load` (lines 325-351): `files`
are the matching candidates after the glob, type and count filters; each is
loaded independently, `except Exception` logging and continuing, and the
successfully loaded documents are accumulated in order. -/
def s3_directory_load (loadFile : String → Except String (List Document))
    (files : List String) : List Document :=
  files.foldl
    (fun all_documents key =>
      match loadFile key with
      | Except.ok documents => all_documents ++ documents
      | Except.error _ => all_documents)
    []

/-! # Theorems -/

/-- Helper: the accumulator form of the `S3DirectoryLoader.load` loop. -/
theorem s3_directory_load_foldl (loadFile : String → Except String (List Document))
    (files : List String) (acc : List Document) :
    files.foldl
      (fun all_documents key =>
        match loadFile key with
        | Except.ok documents => all_documents ++ documents
        | Except.error _ => all_documents)
      acc =
      acc ++ (files.filterMap (fun key => (loadFile key).toOption)).flatten := by
  induction files generalizing acc with
  | nil => simp
  | cons k rest ih =>
    cases h : loadFile k <;> simp [List.foldl_cons, h, Except.toOption, ih]

/-- C9: for every list of matching files under an object-store prefix,
`S3DirectoryLoader.load` loads each file independently, continues past any
individual file's load failure, and returns exactly the concatenated
documents of the files that loaded successfully. -/
theorem s3_directory_load_best_effort (loadFile : String → Except String (List Document))
    (files : List String) :
    s3_directory_load loadFile files =
      (files.filterMap (fun key => (loadFile key).toOption)).flatten := by
  simpa using s3_directory_load_foldl loadFile files []

/-- C3 (counterexample): with the default configuration and no previously
persisted index at the configured location, `load_vector_store` returns a
handle rather than failing with `NotFoundError`. -/
theorem load_vector_store_no_index_returns_handle :
    load_vector_store {} false = Except.ok ⟨"bmo_learning_docs", "./data/chroma"⟩ := rfl

/-- C3 (amended): `load_vector_store` performs no existence check — for every
configuration, and whether or not a persisted index exists at the configured
location, it returns a handle for the configured collection and directory and
never fails with `NotFoundError`. -/
theorem load_vector_store_always_ok (mgr : VectorStoreManager) (indexExists : Bool) :
    load_vector_store mgr indexExists =
      Except.ok ⟨mgr.collection_name, mgr.persist_directory⟩ := rfl

/-- C4 (code bug, evaluated): the member `../data-evil/f` of an archive
extracted into `/data` resolves to `/data-evil/f`, outside the target
directory, yet passes the source's `startswith` string-prefix check — because
`"/data-evil/f"` starts with the string `"/data"` — so `restore_from_s3`
extracts it instead of raising. -/
theorem restore_from_s3_zip_slip_escape :
    memberWithin ["data"] ⟨["..", "data-evil", "f"]⟩ = false ∧
    memberPathCheck ["data"] ⟨["..", "data-evil", "f"]⟩ = true ∧
    restore_from_s3 false true ["data"] [⟨["..", "data-evil", "f"]⟩] =
      Except.ok [⟨["..", "data-evil", "f"]⟩] := by
  refine ⟨by decide, by decide, rfl⟩

/-- C1 (code bug, evaluated): a moderation-classifier exception makes
`_check_moderation` return `flagged=False`, so for every input
`validate_content` leaves `moderation_flagged` false; on clean content the
report passes outright.  The spec, and the repository's own test
`test_check_content_moderation_api_error`, require the opposite (fail
closed: flagged, not passed). -/
theorem validate_content_moderation_fail_open :
    (∀ (st : Settings) (cc : Except String String) (content : List Char) (e : String),
      (validate_content st (Except.error e) cc content).moderation_flagged = false) ∧
    validate_content {} (Except.error "API Error") (Except.error "LLM down") "Any content".data =
      { passed := true, pii_detected := false, moderation_flagged := false,
        constitutional_ai_passed := true, issues := [] } := by
  constructor
  · intro st cc content e
    simp only [validate_content, check_moderation]
    split <;> split <;> split <;> (try split) <;> (try split) <;> simp_all
  · rfl

/-- C8: `get_learning_path` maps performance `0.9` to
`difficulty_adjustment="increase"`, `0.3` to `"decrease"` with
`reinforcement_needed=true`, and `0.6` to `"maintain"`, for every learner
and topic. -/
theorem get_learning_path_thresholds (learner_id current_topic : String) :
    (get_learning_path learner_id current_topic (9/10)).difficulty_adjustment = "increase" ∧
    (get_learning_path learner_id current_topic (3/10)).difficulty_adjustment = "decrease" ∧
    (get_learning_path learner_id current_topic (3/10)).reinforcement_needed = true ∧
    (get_learning_path learner_id current_topic (6/10)).difficulty_adjustment = "maintain" := by
  refine ⟨?_, ?_, ?_, ?_⟩ <;> norm_num [get_learning_path]

/-- C6: on a `"quiz"` interaction carrying a score, `update_learner_progress`
recomputes the running average as `(old_avg * old_count + score) / (old_count
+ 1)` and increments `quizzes_taken`. -/
theorem update_learner_progress_running_average (context : LearnerContext)
    (interaction : Interaction) (s : ℚ)
    (htype : interaction.type = some "quiz") (hscore : interaction.score = some s) :
    (update_learner_progress context interaction).performance_metrics.average_score =
      (context.performance_metrics.average_score * context.performance_metrics.quizzes_taken + s) /
        (context.performance_metrics.quizzes_taken + 1) ∧
    (update_learner_progress context interaction).performance_metrics.quizzes_taken =
      context.performance_metrics.quizzes_taken + 1 := by
  simp [update_learner_progress, htype, hscore]

/-- A concrete stored context: three quizzes taken, average 1/2. -/
def exampleContext : LearnerContext :=
  { learner_id := "alice"
    topics_covered := ["budgeting"]
    current_level := "beginner"
    performance_metrics := { average_score := 1/2, quizzes_taken := 3 }
    preferences_difficulty := "medium"
    recent_interactions := [] }

/-- A concrete quiz interaction with score 1. -/
def exampleQuiz : Interaction :=
  { type := some "quiz", score := some 1, topic := some "saving" }

/-- Witness for C6 at a concrete context and interaction. -/
theorem update_learner_progress_running_average_witness :
    (update_learner_progress exampleContext exampleQuiz).performance_metrics.average_score =
      (exampleContext.performance_metrics.average_score *
          exampleContext.performance_metrics.quizzes_taken + 1) /
        (exampleContext.performance_metrics.quizzes_taken + 1) ∧
    (update_learner_progress exampleContext exampleQuiz).performance_metrics.quizzes_taken =
      exampleContext.performance_metrics.quizzes_taken + 1 :=
  update_learner_progress_running_average exampleContext exampleQuiz 1 rfl rfl

/-- C7: `update_learner_progress` preserves the learner-context invariants:
the interaction log has length at most 10, the new interaction is its last
entry, the log is a final segment of the old log with the new interaction
appended (oldest entries dropped), and, given `topics_covered` had no
duplicate, it still has none. -/
theorem update_learner_progress_invariants (context : LearnerContext)
    (interaction : Interaction) (hnodup : context.topics_covered.Nodup) :
    (update_learner_progress context interaction).recent_interactions.length ≤ 10 ∧
    (update_learner_progress context interaction).recent_interactions.getLast? =
      some interaction ∧
    (∃ k, (update_learner_progress context interaction).recent_interactions =
      (context.recent_interactions ++ [interaction]).drop k) ∧
    (update_learner_progress context interaction).topics_covered.Nodup := by
  have happ :
      (update_learner_progress context interaction).recent_interactions =
        (if (context.recent_interactions ++ [interaction]).length > 10 then
          (context.recent_interactions ++ [interaction]).drop
            ((context.recent_interactions ++ [interaction]).length - 10)
        else context.recent_interactions ++ [interaction]) := rfl
  have htop :
      (update_learner_progress context interaction).topics_covered =
        (match interaction.topic with
          | some t =>
            if t ∈ context.topics_covered then context.topics_covered
            else context.topics_covered ++ [t]
          | none => context.topics_covered) := rfl
  refine ⟨?_, ?_, ?_, ?_⟩
  · rw [happ]
    split
    · rw [List.length_drop]; omega
    · omega
  · rw [happ]
    split
    · rename_i hgt
      rw [List.drop_append_of_le_length (by simp at hgt ⊢)]
      exact List.getLast?_concat _
    · exact List.getLast?_concat _
  · rw [happ]
    split
    · exact ⟨_, rfl⟩
    · exact ⟨0, by simp⟩
  · rw [htop]
    cases htopic : interaction.topic with
    | none => exact hnodup
    | some t =>
      by_cases hmem : t ∈ context.topics_covered
      · simp [hmem, hnodup]
      · simp [hmem, List.nodup_append, hnodup]

/-- Witness for C7 at a concrete context and interaction. -/
theorem update_learner_progress_invariants_witness :
    (update_learner_progress exampleContext exampleQuiz).recent_interactions.length ≤ 10 ∧
    (update_learner_progress exampleContext exampleQuiz).recent_interactions.getLast? =
      some exampleQuiz ∧
    (∃ k, (update_learner_progress exampleContext exampleQuiz).recent_interactions =
      (exampleContext.recent_interactions ++ [exampleQuiz]).drop k) ∧
    (update_learner_progress exampleContext exampleQuiz).topics_covered.Nodup :=
  update_learner_progress_invariants exampleContext exampleQuiz (by decide)

/-- C10: `get_learner_context` is total, and both a missing stored value and
a stored value the JSON decoder rejects produce the same default context:
level `"beginner"`, average score 0, no quizzes, empty topics and
interaction log. -/
theorem get_learner_context_default_on_missing_or_corrupt
    (decode : String → Option LearnerContext) (learner_id s : String)
    (hbad : decode s = none) :
    get_learner_context none decode learner_id =
      { learner_id := learner_id
        topics_covered := []
        current_level := "beginner"
        performance_metrics := { average_score := 0, quizzes_taken := 0 }
        preferences_difficulty := "medium"
        recent_interactions := [] } ∧
    get_learner_context (some s) decode learner_id =
      { learner_id := learner_id
        topics_covered := []
        current_level := "beginner"
        performance_metrics := { average_score := 0, quizzes_taken := 0 }
        preferences_difficulty := "medium"
        recent_interactions := [] } := by
  constructor
  · rfl
  · simp only [get_learner_context, hbad]
    split <;> rfl

/-- Witness for C10: a stored record that is not valid JSON. -/
theorem get_learner_context_default_witness :
    get_learner_context none (fun _ => none) "alice" =
      { learner_id := "alice"
        topics_covered := []
        current_level := "beginner"
        performance_metrics := { average_score := 0, quizzes_taken := 0 }
        preferences_difficulty := "medium"
        recent_interactions := [] } ∧
    get_learner_context (some "not valid json") (fun _ => none) "alice" =
      { learner_id := "alice"
        topics_covered := []
        current_level := "beginner"
        performance_metrics := { average_score := 0, quizzes_taken := 0 }
        preferences_difficulty := "medium"
        recent_interactions := [] } :=
  get_learner_context_default_on_missing_or_corrupt (fun _ => none) "alice"
    "not valid json" rfl

/-- Helper: unfolding one step of `searchFrom` when the search fails — the
pattern does not match here, and the search from the next position also
fails. -/
theorem searchFrom_false_elim {pat : List RItem} {cs : List Char} {prev : Option Char}
    (h : searchFrom pat cs prev = false) :
    matchItems pat cs prev = none ∧
      (∀ c rest, cs = c :: rest → searchFrom pat rest (some c) = false) := by
  cases cs with
  | nil =>
    simp only [searchFrom] at h
    exact ⟨by simpa using h, fun c rest hcs => by cases hcs⟩
  | cons c rest =>
    simp only [searchFrom, Bool.or_eq_false_iff] at h
    exact ⟨by simpa using h.1, fun c2 rest2 hcs => by cases hcs; exact h.2⟩

/-- Helper: a pattern that matches at no position leaves `re.sub` as the
identity, whatever the fuel. -/
theorem subAllF_id_of_no_match (pat : List RItem) (repl : List Char) :
    ∀ (fuel : Nat) (cs : List Char) (prev : Option Char),
      searchFrom pat cs prev = false → subAllF fuel pat repl cs prev = cs := by
  intro fuel
  induction fuel with
  | zero => intro cs prev _; rfl
  | succ fuel ih =>
    intro cs prev h
    obtain ⟨hm, hrest⟩ := searchFrom_false_elim h
    cases cs with
    | nil => simp [subAllF, hm]
    | cons c rest =>
      simp only [subAllF, hm]
      rw [ih rest (some c) (hrest c rest rfl)]

/-- Helper: `re.sub` is the identity when `re.search` fails. -/
theorem reSub_id_of_no_search (pat : List RItem) (repl : List Char) (cs : List Char)
    (h : reSearch pat cs = false) : reSub pat repl cs = cs :=
  subAllF_id_of_no_match pat repl (cs.length + 1) cs none h

/-- Helper: an empty PII report means each of the four detector regexes
fails to match. -/
theorem searches_false_of_detect_nil {cs : List Char}
    (h : detect_pii_list (some cs) = []) :
    reSearch emailRe cs = false ∧ reSearch phoneRe cs = false ∧
    reSearch ssnRe cs = false ∧ reSearch creditCardRe cs = false := by
  cases cs with
  | nil => refine ⟨?_, ?_, ?_, ?_⟩ <;> decide
  | cons a l =>
    simp only [detect_pii_list, List.isEmpty_cons, if_false, Bool.false_eq_true] at h
    by_cases he : reSearch emailRe (a :: l) <;>
      by_cases hp : reSearch phoneRe (a :: l) <;>
      by_cases hs : reSearch ssnRe (a :: l) <;>
      by_cases hc : reSearch creditCardRe (a :: l) <;>
      simp [he, hp, hs, hc] at h ⊢

/-- Helper: the `pii_detected` field of the validation report is exactly
"PII detection is enabled and the detector list is nonempty"; the moderation
and constitutional steps never touch it. -/
theorem validate_content_pii_detected (st : Settings) (mc : Except String ModerationResult)
    (cc : Except String String) (content : List Char) :
    (validate_content st mc cc content).pii_detected =
      (st.enable_pii_detection && !(detect_pii_list (some content)).isEmpty) := by
  simp only [validate_content]
  split <;> split <;> (try split) <;> (try split) <;> (try split) <;> simp_all

/-- C2 (counterexample): the text `"555-1234"` contains no PII according to
`validate_content` — the detector's phone regex requires ten digits — yet
`sanitize_content` rewrites it to `"[REDACTED]"` via its extra
`\b\d{3}[-.\s]\d{4}\b` pass, so sanitization is not the identity on this
PII-free text. -/
theorem sanitize_content_not_id_on_pii_free :
    (validate_content {} (Except.ok ⟨false, []⟩) (Except.error "judge down")
        "555-1234".data).pii_detected = false ∧
    sanitize_content "555-1234".data ≠ "555-1234".data := by
  exact ⟨by decide, by decide⟩

/-- C2 (amended): sanitization is the identity on text on which the PII
detector reports nothing *and* which contains no match of the short-phone
pattern `\b\d{3}[-.\s]\d{4}\b` — the one pattern `sanitize_content` redacts
but `_detect_pii_list` does not report. -/
theorem sanitize_content_id_of_pii_free (mc : Except String ModerationResult)
    (cc : Except String String) (cs : List Char)
    (hpii : (validate_content {} mc cc cs).pii_detected = false)
    (hshort : reSearch shortPhoneRe cs = false) :
    sanitize_content cs = cs := by
  have hdet : detect_pii_list (some cs) = [] := by
    have hfield := validate_content_pii_detected {} mc cc cs
    rw [hpii] at hfield
    simpa [List.isEmpty_iff] using hfield.symm
  obtain ⟨he, hp, hs, hc⟩ := searches_false_of_detect_nil hdet
  simp only [sanitize_content]
  rw [reSub_id_of_no_search _ _ _ he, reSub_id_of_no_search _ _ _ hp,
    reSub_id_of_no_search _ _ _ hshort, reSub_id_of_no_search _ _ _ hs,
    reSub_id_of_no_search _ _ _ hc]

/-- Witness for the amended C2 at the concrete text `"hello world"`. -/
theorem sanitize_content_id_of_pii_free_witness :
    (validate_content {} (Except.ok ⟨false, []⟩) (Except.error "judge down")
        "hello world".data).pii_detected = false ∧
    reSearch shortPhoneRe "hello world".data = false ∧
    sanitize_content "hello world".data = "hello world".data :=
  ⟨by decide, by decide,
    sanitize_content_id_of_pii_free (Except.ok ⟨false, []⟩) (Except.error "judge down")
      "hello world".data (by decide) (by decide)⟩


theorem digit_ne (c : Char) {x : Char} (h : isDigitChar x = true)
    (hc : isDigitChar c = false) : decide (x = c) = false := by
  apply decide_eq_false
  intro he
  subst he
  simp [h] at hc


theorem digit_word {x : Char} (h : isDigitChar x = true) : isWordChar x = true := by
  simp [isWordChar, h]

theorem digit_not_space {x : Char} (h : isDigitChar x = true) : isSpaceChar x = false := by
  simp [isSpaceChar, digit_ne ' ' h (by decide), digit_ne '\t' h (by decide),
    digit_ne '\n' h (by decide), digit_ne '\r' h (by decide),
    digit_ne '\x0b' h (by decide), digit_ne '\x0c' h (by decide)]

theorem digit_not_phoneSep {x : Char} (h : isDigitChar x = true) : phoneSepClass x = false := by
  simp [phoneSepClass, digit_ne '-' h (by decide), digit_ne '.' h (by decide),
    digit_not_space h]





theorem range_eval_2 : List.range 2 = [0, 1] := by decide
theorem range_eval_3 : List.range 3 = [0, 1, 2] := by decide
theorem range_eval_4 : List.range 4 = [0, 1, 2, 3] := by decide
theorem range_eval_5 : List.range 5 = [0, 1, 2, 3, 4] := by decide

theorem digit_ne_lit (c : Char) {x : Char} (h : isDigitChar x = true)
    (hc : isDigitChar c = false) : ¬(x = c) := by
  intro he
  subst he
  simp [h] at hc

theorem range_eval_1 : List.range 1 = [0] := by decide

theorem matchItems_nil_inv {cs suffix : List Char} {prev : Option Char}
    (h : matchItems [] cs prev = some suffix) : suffix = cs := by
  simpa [matchItems] using h.symm

theorem matchItems_one_inv {p : Char → Bool} {rest : List RItem} {cs suffix : List Char}
    {prev : Option Char} (h : matchItems (RItem.one p :: rest) cs prev = some suffix) :
    ∃ c cs1, cs = c :: cs1 ∧ p c = true ∧ matchItems rest cs1 (some c) = some suffix := by
  cases cs with
  | nil => simp [matchItems] at h
  | cons c cs1 =>
    by_cases hp : p c
    · exact ⟨c, cs1, rfl, hp, by simpa [matchItems, hp] using h⟩
    · simp [matchItems, hp] at h

theorem matchItems_wb_inv {rest : List RItem} {cs suffix : List Char}
    {prev : Option Char} (h : matchItems (RItem.wb :: rest) cs prev = some suffix) :
    atBoundary prev cs = true ∧ matchItems rest cs prev = some suffix := by
  by_cases hb : atBoundary prev cs
  · exact ⟨hb, by simpa [matchItems, hb] using h⟩
  · simp [matchItems, hb] at h

theorem matchItems_rep_inv {p : Char → Bool} {mn : Nat} {mx : Option Nat} {rest : List RItem}
    {cs suffix : List Char} {prev : Option Char}
    (h : matchItems (RItem.rep p mn mx :: rest) cs prev = some suffix) :
    ∃ k, mn ≤ k ∧ k ≤ runLen p cs ∧
      matchItems rest (cs.drop k) (lastLetter prev (cs.take k)) = some suffix := by
  simp only [matchItems] at h
  obtain ⟨a, ha, hfa⟩ := List.exists_of_findSome?_eq_some h
  simp only [List.mem_map, List.mem_range] at ha
  obtain ⟨j, hj, rfl⟩ := ha
  refine ⟨_, ?_, ?_, hfa⟩ <;>
    cases mx <;> simp_all <;> omega


theorem countP_take_of_le_runLen (p : Char → Bool) :
    ∀ (cs : List Char) (k : Nat), k ≤ runLen p cs → (cs.take k).countP p = k := by
  intro cs
  induction cs with
  | nil => intro k hk; simp [runLen] at hk; simp [hk]
  | cons c cs ih =>
    intro k hk
    cases k with
    | zero => simp
    | succ k =>
      by_cases hp : p c
      · simp only [runLen, hp, if_true] at hk
        simp [List.countP_cons, hp, ih k (by omega)]
      · simp [runLen, hp] at hk

theorem countP_drop_le (p : Char → Bool) (cs : List Char) (k : Nat) :
    (cs.drop k).countP p ≤ cs.countP p := by
  conv_rhs => rw [← List.take_append_drop k cs]
  rw [List.countP_append]
  omega

theorem countP_step_of_le_runLen (p : Char → Bool) (cs : List Char) (k : Nat)
    (hk : k ≤ runLen p cs) : cs.countP p = k + (cs.drop k).countP p := by
  conv_lhs => rw [← List.take_append_drop k cs]
  rw [List.countP_append, countP_take_of_le_runLen p cs k hk]

theorem matchItems_phone_digits {cs suffix : List Char} {prev : Option Char}
    (h : matchItems phoneRe cs prev = some suffix) : 10 ≤ cs.countP isDigitChar := by
  rw [phoneRe] at h
  obtain ⟨k0, _, hk0r, h⟩ := matchItems_rep_inv h
  obtain ⟨k1, hk1m, hk1r, h⟩ := matchItems_rep_inv h
  obtain ⟨k2, _, hk2r, h⟩ := matchItems_rep_inv h
  obtain ⟨k3, _, hk3r, h⟩ := matchItems_rep_inv h
  obtain ⟨k4, hk4m, hk4r, h⟩ := matchItems_rep_inv h
  obtain ⟨k5, _, hk5r, h⟩ := matchItems_rep_inv h
  obtain ⟨k6, hk6m, hk6r, h⟩ := matchItems_rep_inv h
  have d0 := countP_drop_le isDigitChar cs k0
  have s1 := countP_step_of_le_runLen isDigitChar _ _ hk1r
  have d2 := countP_drop_le isDigitChar ((cs.drop k0).drop k1) k2
  have d3 := countP_drop_le isDigitChar (((cs.drop k0).drop k1).drop k2) k3
  have s4 := countP_step_of_le_runLen isDigitChar _ _ hk4r
  have d5 := countP_drop_le isDigitChar
    (((((cs.drop k0).drop k1).drop k2).drop k3).drop k4) k5
  have s6 := countP_step_of_le_runLen isDigitChar _ _ hk6r
  omega

theorem searchFrom_false_glue (pat : List RItem) (P : List Char → Prop)
    (hmono : ∀ c cs, P (c :: cs) → P cs)
    (hnone : ∀ cs prev, P cs → matchItems pat cs prev = none) :
    ∀ cs prev, P cs → searchFrom pat cs prev = false := by
  intro cs
  induction cs with
  | nil => intro prev hP; simp [searchFrom, hnone _ _ hP]
  | cons c rest ih =>
    intro prev hP
    simp [searchFrom, hnone _ _ hP, ih (some c) (hmono c rest hP)]

theorem matchItems_one_mem {p : Char → Bool} :
    ∀ (items : List RItem) (cs suffix : List Char) (prev : Option Char),
      matchItems items cs prev = some suffix → RItem.one p ∈ items →
        ∃ c, c ∈ cs ∧ p c = true := by
  intro items
  induction items with
  | nil => intro cs suffix prev _ hmem; simp at hmem
  | cons it rest ih =>
    intro cs suffix prev h hmem
    cases it with
    | one q =>
      obtain ⟨c, cs1, rfl, hq, h1⟩ := matchItems_one_inv h
      rcases List.mem_cons.mp hmem with heq | hmem1
      · injection heq with hpq
        subst hpq
        exact ⟨c, List.mem_cons_self c cs1, hq⟩
      · obtain ⟨c1, hc1, hp1⟩ := ih cs1 suffix (some c) h1 hmem1
        exact ⟨c1, List.mem_cons_of_mem _ hc1, hp1⟩
    | wb =>
      obtain ⟨_, h1⟩ := matchItems_wb_inv h
      rcases List.mem_cons.mp hmem with heq | hmem1
      · exact absurd heq (by simp)
      · exact ih cs suffix prev h1 hmem1
    | rep q mn mx =>
      obtain ⟨k, _, _, h1⟩ := matchItems_rep_inv h
      rcases List.mem_cons.mp hmem with heq | hmem1
      · exact absurd heq (by simp)
      · obtain ⟨c1, hc1, hp1⟩ := ih _ suffix _ h1 hmem1
        exact ⟨c1, List.mem_of_mem_drop hc1, hp1⟩

theorem no_at_no_email_search (cs : List Char) (prev : Option Char)
    (hfree : ∀ c ∈ cs, decide (c = '@') = false) :
    searchFrom emailRe cs prev = false := by
  refine searchFrom_false_glue emailRe (fun l => ∀ c ∈ l, decide (c = '@') = false)
    ?_ ?_ cs prev hfree
  · intro c l hP c1 hc1
    exact hP c1 (List.mem_cons_of_mem c hc1)
  · intro l prev1 hP
    cases hm : matchItems emailRe l prev1 with
    | none => rfl
    | some s =>
      have hmem : RItem.one (fun c => decide (c = '@')) ∈ emailRe := by simp [emailRe]
      obtain ⟨c, hc, hp⟩ := matchItems_one_mem emailRe l s prev1 hm hmem
      rw [hP c hc] at hp
      cases hp

theorem few_digits_no_phone_search (cs : List Char) (prev : Option Char)
    (hcount : cs.countP isDigitChar ≤ 9) :
    searchFrom phoneRe cs prev = false := by
  refine searchFrom_false_glue phoneRe (fun l => l.countP isDigitChar ≤ 9)
    ?_ ?_ cs prev hcount
  · intro c l hP
    rw [List.countP_cons] at hP
    omega
  · intro l prev1 hP
    cases hm : matchItems phoneRe l prev1 with
    | none => rfl
    | some s =>
      have := matchItems_phone_digits hm
      omega

set_option maxHeartbeats 1000000 in
theorem ssn_text_match_at_start
    (d1 d2 d3 d4 d5 d6 d7 d8 d9 : Char)
    (h1 : isDigitChar d1 = true) (h2 : isDigitChar d2 = true) (h3 : isDigitChar d3 = true)
    (h4 : isDigitChar d4 = true) (h5 : isDigitChar d5 = true) (h6 : isDigitChar d6 = true)
    (h7 : isDigitChar d7 = true) (h8 : isDigitChar d8 = true) (h9 : isDigitChar d9 = true) :
    matchItems ssnRe [d1, d2, d3, '-', d4, d5, '-', d6, d7, d8, d9] none = some [] := by
  simp +decide [matchItems, ssnRe, runLen, atBoundary, lastLetter, Nat.min_def,
    range_eval_1, range_eval_2, range_eval_3, range_eval_4, range_eval_5,
    List.findSome?_cons, -List.findSome?_eq_none_iff,
    h1, h2, h3, h4, h5, h6, h7, h8, h9,
    digit_word h1, digit_word h9,
    digit_ne_lit '-' h1 (by decide), digit_ne_lit '-' h2 (by decide),
    digit_ne_lit '-' h3 (by decide), digit_ne_lit '-' h4 (by decide),
    digit_ne_lit '-' h5 (by decide), digit_ne_lit '-' h6 (by decide),
    digit_ne_lit '-' h7 (by decide), digit_ne_lit '-' h8 (by decide),
    digit_ne_lit '-' h9 (by decide)]

theorem matchItems_ssn_nil (prev : Option Char) : matchItems ssnRe [] prev = none := by
  cases prev with
  | none => decide
  | some c =>
    by_cases hw : isWordChar c
    · simp +decide [matchItems, ssnRe, runLen, atBoundary, hw]
    · simp +decide [matchItems, ssnRe, runLen, atBoundary, hw]

set_option maxHeartbeats 1000000 in
theorem ssn_text_ssn_sub
    (d1 d2 d3 d4 d5 d6 d7 d8 d9 : Char)
    (h1 : isDigitChar d1 = true) (h2 : isDigitChar d2 = true) (h3 : isDigitChar d3 = true)
    (h4 : isDigitChar d4 = true) (h5 : isDigitChar d5 = true) (h6 : isDigitChar d6 = true)
    (h7 : isDigitChar d7 = true) (h8 : isDigitChar d8 = true) (h9 : isDigitChar d9 = true) :
    reSub ssnRe redactedToken [d1, d2, d3, '-', d4, d5, '-', d6, d7, d8, d9] =
      "[REDACTED]".data := by
  have hstart := ssn_text_match_at_start d1 d2 d3 d4 d5 d6 d7 d8 d9
    h1 h2 h3 h4 h5 h6 h7 h8 h9
  simp [reSub, subAllF, hstart, matchItems_ssn_nil, lastLetter, redactedToken]

set_option maxHeartbeats 2000000 in
theorem ssn_text_no_short_phone
    (d1 d2 d3 d4 d5 d6 d7 d8 d9 : Char)
    (h1 : isDigitChar d1 = true) (h2 : isDigitChar d2 = true) (h3 : isDigitChar d3 = true)
    (h4 : isDigitChar d4 = true) (h5 : isDigitChar d5 = true) (h6 : isDigitChar d6 = true)
    (h7 : isDigitChar d7 = true) (h8 : isDigitChar d8 = true) (h9 : isDigitChar d9 = true) :
    searchFrom shortPhoneRe [d1, d2, d3, '-', d4, d5, '-', d6, d7, d8, d9] none = false := by
  have m0 : matchItems shortPhoneRe [d1, d2, d3, '-', d4, d5, '-', d6, d7, d8, d9] none = none := by
    simp +decide [matchItems, shortPhoneRe, runLen, atBoundary, lastLetter, Nat.min_def, range_eval_1, range_eval_2, range_eval_3, range_eval_4, range_eval_5, List.findSome?_cons, -List.findSome?_eq_none_iff, h1, h2, h3, h4, h5, h6, h7, h8, h9, digit_not_phoneSep h1, digit_not_phoneSep h2, digit_not_phoneSep h3, digit_not_phoneSep h4, digit_not_phoneSep h5, digit_not_phoneSep h6, digit_not_phoneSep h7, digit_not_phoneSep h8, digit_not_phoneSep h9, digit_word h1, digit_word h2, digit_word h3, digit_word h4, digit_word h5, digit_word h6, digit_word h7, digit_word h8, digit_word h9]
  have m1 : matchItems shortPhoneRe [d2, d3, '-', d4, d5, '-', d6, d7, d8, d9] (some d1) = none := by
    simp +decide [matchItems, shortPhoneRe, runLen, atBoundary, lastLetter, Nat.min_def, range_eval_1, range_eval_2, range_eval_3, range_eval_4, range_eval_5, List.findSome?_cons, -List.findSome?_eq_none_iff, h1, h2, h3, h4, h5, h6, h7, h8, h9, digit_not_phoneSep h1, digit_not_phoneSep h2, digit_not_phoneSep h3, digit_not_phoneSep h4, digit_not_phoneSep h5, digit_not_phoneSep h6, digit_not_phoneSep h7, digit_not_phoneSep h8, digit_not_phoneSep h9, digit_word h1, digit_word h2, digit_word h3, digit_word h4, digit_word h5, digit_word h6, digit_word h7, digit_word h8, digit_word h9]
  have m2 : matchItems shortPhoneRe [d3, '-', d4, d5, '-', d6, d7, d8, d9] (some d2) = none := by
    simp +decide [matchItems, shortPhoneRe, runLen, atBoundary, lastLetter, Nat.min_def, range_eval_1, range_eval_2, range_eval_3, range_eval_4, range_eval_5, List.findSome?_cons, -List.findSome?_eq_none_iff, h1, h2, h3, h4, h5, h6, h7, h8, h9, digit_not_phoneSep h1, digit_not_phoneSep h2, digit_not_phoneSep h3, digit_not_phoneSep h4, digit_not_phoneSep h5, digit_not_phoneSep h6, digit_not_phoneSep h7, digit_not_phoneSep h8, digit_not_phoneSep h9, digit_word h1, digit_word h2, digit_word h3, digit_word h4, digit_word h5, digit_word h6, digit_word h7, digit_word h8, digit_word h9]
  have m3 : matchItems shortPhoneRe ['-', d4, d5, '-', d6, d7, d8, d9] (some d3) = none := by
    simp +decide [matchItems, shortPhoneRe, runLen, atBoundary, lastLetter, Nat.min_def, range_eval_1, range_eval_2, range_eval_3, range_eval_4, range_eval_5, List.findSome?_cons, -List.findSome?_eq_none_iff, h1, h2, h3, h4, h5, h6, h7, h8, h9, digit_not_phoneSep h1, digit_not_phoneSep h2, digit_not_phoneSep h3, digit_not_phoneSep h4, digit_not_phoneSep h5, digit_not_phoneSep h6, digit_not_phoneSep h7, digit_not_phoneSep h8, digit_not_phoneSep h9, digit_word h1, digit_word h2, digit_word h3, digit_word h4, digit_word h5, digit_word h6, digit_word h7, digit_word h8, digit_word h9]
  have m4 : matchItems shortPhoneRe [d4, d5, '-', d6, d7, d8, d9] (some '-') = none := by
    simp +decide [matchItems, shortPhoneRe, runLen, atBoundary, lastLetter, Nat.min_def, range_eval_1, range_eval_2, range_eval_3, range_eval_4, range_eval_5, List.findSome?_cons, -List.findSome?_eq_none_iff, h1, h2, h3, h4, h5, h6, h7, h8, h9, digit_not_phoneSep h1, digit_not_phoneSep h2, digit_not_phoneSep h3, digit_not_phoneSep h4, digit_not_phoneSep h5, digit_not_phoneSep h6, digit_not_phoneSep h7, digit_not_phoneSep h8, digit_not_phoneSep h9, digit_word h1, digit_word h2, digit_word h3, digit_word h4, digit_word h5, digit_word h6, digit_word h7, digit_word h8, digit_word h9]
  have m5 : matchItems shortPhoneRe [d5, '-', d6, d7, d8, d9] (some d4) = none := by
    simp +decide [matchItems, shortPhoneRe, runLen, atBoundary, lastLetter, Nat.min_def, range_eval_1, range_eval_2, range_eval_3, range_eval_4, range_eval_5, List.findSome?_cons, -List.findSome?_eq_none_iff, h1, h2, h3, h4, h5, h6, h7, h8, h9, digit_not_phoneSep h1, digit_not_phoneSep h2, digit_not_phoneSep h3, digit_not_phoneSep h4, digit_not_phoneSep h5, digit_not_phoneSep h6, digit_not_phoneSep h7, digit_not_phoneSep h8, digit_not_phoneSep h9, digit_word h1, digit_word h2, digit_word h3, digit_word h4, digit_word h5, digit_word h6, digit_word h7, digit_word h8, digit_word h9]
  have m6 : matchItems shortPhoneRe ['-', d6, d7, d8, d9] (some d5) = none := by
    simp +decide [matchItems, shortPhoneRe, runLen, atBoundary, lastLetter, Nat.min_def, range_eval_1, range_eval_2, range_eval_3, range_eval_4, range_eval_5, List.findSome?_cons, -List.findSome?_eq_none_iff, h1, h2, h3, h4, h5, h6, h7, h8, h9, digit_not_phoneSep h1, digit_not_phoneSep h2, digit_not_phoneSep h3, digit_not_phoneSep h4, digit_not_phoneSep h5, digit_not_phoneSep h6, digit_not_phoneSep h7, digit_not_phoneSep h8, digit_not_phoneSep h9, digit_word h1, digit_word h2, digit_word h3, digit_word h4, digit_word h5, digit_word h6, digit_word h7, digit_word h8, digit_word h9]
  have m7 : matchItems shortPhoneRe [d6, d7, d8, d9] (some '-') = none := by
    simp +decide [matchItems, shortPhoneRe, runLen, atBoundary, lastLetter, Nat.min_def, range_eval_1, range_eval_2, range_eval_3, range_eval_4, range_eval_5, List.findSome?_cons, -List.findSome?_eq_none_iff, h1, h2, h3, h4, h5, h6, h7, h8, h9, digit_not_phoneSep h1, digit_not_phoneSep h2, digit_not_phoneSep h3, digit_not_phoneSep h4, digit_not_phoneSep h5, digit_not_phoneSep h6, digit_not_phoneSep h7, digit_not_phoneSep h8, digit_not_phoneSep h9, digit_word h1, digit_word h2, digit_word h3, digit_word h4, digit_word h5, digit_word h6, digit_word h7, digit_word h8, digit_word h9]
  have m8 : matchItems shortPhoneRe [d7, d8, d9] (some d6) = none := by
    simp +decide [matchItems, shortPhoneRe, runLen, atBoundary, lastLetter, Nat.min_def, range_eval_1, range_eval_2, range_eval_3, range_eval_4, range_eval_5, List.findSome?_cons, -List.findSome?_eq_none_iff, h1, h2, h3, h4, h5, h6, h7, h8, h9, digit_not_phoneSep h1, digit_not_phoneSep h2, digit_not_phoneSep h3, digit_not_phoneSep h4, digit_not_phoneSep h5, digit_not_phoneSep h6, digit_not_phoneSep h7, digit_not_phoneSep h8, digit_not_phoneSep h9, digit_word h1, digit_word h2, digit_word h3, digit_word h4, digit_word h5, digit_word h6, digit_word h7, digit_word h8, digit_word h9]
  have m9 : matchItems shortPhoneRe [d8, d9] (some d7) = none := by
    simp +decide [matchItems, shortPhoneRe, runLen, atBoundary, lastLetter, Nat.min_def, range_eval_1, range_eval_2, range_eval_3, range_eval_4, range_eval_5, List.findSome?_cons, -List.findSome?_eq_none_iff, h1, h2, h3, h4, h5, h6, h7, h8, h9, digit_not_phoneSep h1, digit_not_phoneSep h2, digit_not_phoneSep h3, digit_not_phoneSep h4, digit_not_phoneSep h5, digit_not_phoneSep h6, digit_not_phoneSep h7, digit_not_phoneSep h8, digit_not_phoneSep h9, digit_word h1, digit_word h2, digit_word h3, digit_word h4, digit_word h5, digit_word h6, digit_word h7, digit_word h8, digit_word h9]
  have m10 : matchItems shortPhoneRe [d9] (some d8) = none := by
    simp +decide [matchItems, shortPhoneRe, runLen, atBoundary, lastLetter, Nat.min_def, range_eval_1, range_eval_2, range_eval_3, range_eval_4, range_eval_5, List.findSome?_cons, -List.findSome?_eq_none_iff, h1, h2, h3, h4, h5, h6, h7, h8, h9, digit_not_phoneSep h1, digit_not_phoneSep h2, digit_not_phoneSep h3, digit_not_phoneSep h4, digit_not_phoneSep h5, digit_not_phoneSep h6, digit_not_phoneSep h7, digit_not_phoneSep h8, digit_not_phoneSep h9, digit_word h1, digit_word h2, digit_word h3, digit_word h4, digit_word h5, digit_word h6, digit_word h7, digit_word h8, digit_word h9]
  have m11 : matchItems shortPhoneRe [] (some d9) = none := by
    simp +decide [matchItems, shortPhoneRe, runLen, atBoundary, lastLetter, Nat.min_def, range_eval_1, range_eval_2, range_eval_3, range_eval_4, range_eval_5, List.findSome?_cons, -List.findSome?_eq_none_iff, h1, h2, h3, h4, h5, h6, h7, h8, h9, digit_not_phoneSep h1, digit_not_phoneSep h2, digit_not_phoneSep h3, digit_not_phoneSep h4, digit_not_phoneSep h5, digit_not_phoneSep h6, digit_not_phoneSep h7, digit_not_phoneSep h8, digit_not_phoneSep h9, digit_word h1, digit_word h2, digit_word h3, digit_word h4, digit_word h5, digit_word h6, digit_word h7, digit_word h8, digit_word h9]
  simp [searchFrom, m0, m1, m2, m3, m4, m5, m6, m7, m8, m9, m10, m11]

/-- Helper: for every nine digits, sanitizing the exact dash-separated SSN
text `ddd-dd-dddd` yields exactly the redaction token — the email pass cannot
match (no `@`), the ten-digit phone pass cannot match (only nine digits), the
short-phone pass has no matching shape, and the SSN pass replaces the whole
text; the credit-card pass leaves the token alone. -/
theorem sanitize_ssn_text
    (d1 d2 d3 d4 d5 d6 d7 d8 d9 : Char)
    (h1 : isDigitChar d1 = true) (h2 : isDigitChar d2 = true) (h3 : isDigitChar d3 = true)
    (h4 : isDigitChar d4 = true) (h5 : isDigitChar d5 = true) (h6 : isDigitChar d6 = true)
    (h7 : isDigitChar d7 = true) (h8 : isDigitChar d8 = true) (h9 : isDigitChar d9 = true) :
    sanitize_content [d1, d2, d3, '-', d4, d5, '-', d6, d7, d8, d9] =
      "[REDACTED]".data := by
  have hat : ∀ c ∈ [d1, d2, d3, '-', d4, d5, '-', d6, d7, d8, d9],
      decide (c = '@') = false := by
    intro c hc
    simp only [List.mem_cons, List.not_mem_nil, or_false] at hc
    rcases hc with rfl | rfl | rfl | rfl | rfl | rfl | rfl | rfl | rfl | rfl | rfl
    · exact digit_ne '@' h1 (by decide)
    · exact digit_ne '@' h2 (by decide)
    · exact digit_ne '@' h3 (by decide)
    · decide
    · exact digit_ne '@' h4 (by decide)
    · exact digit_ne '@' h5 (by decide)
    · decide
    · exact digit_ne '@' h6 (by decide)
    · exact digit_ne '@' h7 (by decide)
    · exact digit_ne '@' h8 (by decide)
    · exact digit_ne '@' h9 (by decide)
  have hcnt : ([d1, d2, d3, '-', d4, d5, '-', d6, d7, d8, d9]).countP isDigitChar = 9 := by
    simp +decide [List.countP_cons, h1, h2, h3, h4, h5, h6, h7, h8, h9]
  have hemail : reSub emailRe redactedToken [d1, d2, d3, '-', d4, d5, '-', d6, d7, d8, d9] =
      [d1, d2, d3, '-', d4, d5, '-', d6, d7, d8, d9] :=
    reSub_id_of_no_search _ _ _ (no_at_no_email_search _ none hat)
  have hphone : reSub phoneRe redactedToken [d1, d2, d3, '-', d4, d5, '-', d6, d7, d8, d9] =
      [d1, d2, d3, '-', d4, d5, '-', d6, d7, d8, d9] :=
    reSub_id_of_no_search _ _ _ (few_digits_no_phone_search _ none (by omega))
  have hshort : reSub shortPhoneRe redactedToken
        [d1, d2, d3, '-', d4, d5, '-', d6, d7, d8, d9] =
      [d1, d2, d3, '-', d4, d5, '-', d6, d7, d8, d9] :=
    reSub_id_of_no_search _ _ _
      (ssn_text_no_short_phone d1 d2 d3 d4 d5 d6 d7 d8 d9 h1 h2 h3 h4 h5 h6 h7 h8 h9)
  have hssn := ssn_text_ssn_sub d1 d2 d3 d4 d5 d6 d7 d8 d9 h1 h2 h3 h4 h5 h6 h7 h8 h9
  have hcc : reSub creditCardRe redactedToken "[REDACTED]".data = "[REDACTED]".data :=
    reSub_id_of_no_search _ _ _ (by decide)
  simp only [sanitize_content]
  rw [hemail, hphone, hshort, hssn, hcc]

/-- C5 (counterexample): the text `"x123-45-6789x 123-45-6789"` contains a
word-boundary-delimited SSN (the second occurrence), so `pii_detected` is
true, but the first occurrence is not boundary-delimited, no redaction pass
touches it, and the sanitized output still contains the nine-digit sequence
`123-45-6789`. -/
theorem sanitize_content_ssn_digits_survive :
    (validate_content {} (Except.ok ⟨false, []⟩) (Except.error "judge down")
        "x123-45-6789x 123-45-6789".data).pii_detected = true ∧
    hasSub (sanitize_content "x123-45-6789x 123-45-6789".data)
      "123-45-6789".data = true := by
  exact ⟨by decide, by decide⟩

/-- Helper: `isEmpty` distributes over append. -/
theorem isEmpty_append_eq (l₁ l₂ : List α) :
    (l₁ ++ l₂).isEmpty = (l₁.isEmpty && l₂.isEmpty) := by
  cases l₁ <;> simp

/-- C5 (amended): whenever the word-boundary-delimited SSN regex
`\b\d{3}-\d{2}-\d{4}\b` matches in a text, `validate_content` reports
`pii_detected = true`; and for every nine digits, sanitizing the exact
dash-separated SSN text `ddd-dd-dddd` (such as `"123-45-6789"`) yields
exactly `"[REDACTED]"` — the whole SSN is replaced, never partially left
behind by an earlier overlapping phone-redaction pass.  (A copy of the digit
sequence *not* delimited by word boundaries may survive sanitization — see
the counterexample.) -/
theorem validate_content_reports_ssn :
    (∀ (mc : Except String ModerationResult) (cc : Except String String) (cs : List Char),
      reSearch ssnRe cs = true →
        (validate_content {} mc cc cs).pii_detected = true) ∧
    (∀ d1 d2 d3 d4 d5 d6 d7 d8 d9 : Char,
      isDigitChar d1 = true → isDigitChar d2 = true → isDigitChar d3 = true →
      isDigitChar d4 = true → isDigitChar d5 = true → isDigitChar d6 = true →
      isDigitChar d7 = true → isDigitChar d8 = true → isDigitChar d9 = true →
      sanitize_content [d1, d2, d3, '-', d4, d5, '-', d6, d7, d8, d9] =
        "[REDACTED]".data) := by
  constructor
  · intro mc cc cs h
    rw [validate_content_pii_detected]
    cases cs with
    | nil => exact absurd h (by decide)
    | cons a l =>
      simp only [detect_pii_list, List.isEmpty_cons, if_false, Bool.false_eq_true, h,
        if_true, isEmpty_append_eq]
      simp
  · intro d1 d2 d3 d4 d5 d6 d7 d8 d9 h1 h2 h3 h4 h5 h6 h7 h8 h9
    exact sanitize_ssn_text d1 d2 d3 d4 d5 d6 d7 d8 d9 h1 h2 h3 h4 h5 h6 h7 h8 h9

/-- Witness for the amended C5: the text `"My SSN is 123-45-6789"` triggers
the detector, and the SSN `"123-45-6789"` itself sanitizes to the bare
redaction token. -/
theorem validate_content_reports_ssn_witness :
    reSearch ssnRe "My SSN is 123-45-6789".data = true ∧
    (validate_content {} (Except.ok ⟨false, []⟩) (Except.error "judge down")
        "My SSN is 123-45-6789".data).pii_detected = true ∧
    sanitize_content "123-45-6789".data = "[REDACTED]".data :=
  ⟨by decide,
    validate_content_reports_ssn.1 (Except.ok ⟨false, []⟩) (Except.error "judge down")
      "My SSN is 123-45-6789".data (by decide),
    validate_content_reports_ssn.2 '1' '2' '3' '4' '5' '6' '7' '8' '9'
      (by decide) (by decide) (by decide) (by decide) (by decide) (by decide)
      (by decide) (by decide) (by decide)⟩
